import Mathlib

/-!
Shallow embedding of the stock_dashboard backend
(src/backend/ai_service.py and src/backend/main.py).

Modelling conventions:
* Python dictionaries become association lists; `dict.get k default` is
  lookup of the first matching key with a fallback.
* Snapshot field values are modelled by `Val`: integers (`vint`, used for
  volume and market capitalization, which are integers per the
  `StockResponse` model) and strings (`vstr`, covering symbol and company
  name as well as the rendered display form of float fields, whose exact
  floating-point arithmetic is never used by the code under study).
* A Python f-string interpolation `{x}` is `render`; the thousands-format
  interpolation `{x:,}` is `commaFmt`, which on a string raises
  `ValueError: Cannot specify ',' with 's'.` exactly as CPython does.
  Raising is modelled with `Except String`.
* `str.upper()` is `pyUpper` (character-wise ASCII uppercasing, which
  agrees with Python on the ASCII data handled here).
-/

/-- Value stored in a snapshot dictionary: an integer or a string. -/
inductive Val where
  | vint (n : Int)
  | vstr (s : String)
deriving DecidableEq, Repr

/-- A stock snapshot: a Python dict from field names to values. -/
abbrev Snapshot : Type := List (String × Val)

/-- Python `d.get(k, dflt)`: first binding of `k`, else the default. -/
def sget (d : Snapshot) (k : String) (dflt : Val) : Val :=
  ((List.find? (fun p => p.1 == k) d).map (fun p => p.2)).getD dflt

/-- Python `str(x)` / f-string `{x}` interpolation of a value. -/
def render : Val → String
  | .vint n => toString n
  | .vstr s => s

/-- Insert a comma after every third character of a reversed digit list. -/
def commaGroupRev : List Char → List Char
  | a :: b :: c :: d :: rest => a :: b :: c :: ',' :: commaGroupRev (d :: rest)
  | l => l

/-- Thousands-separated decimal rendering of a natural number. -/
def commaNat (n : Nat) : String :=
  String.mk (commaGroupRev (toString n).data.reverse).reverse

/-- Thousands-separated decimal rendering of an integer (Python `format(n, ",")`). -/
def commaInt (n : Int) : String :=
  if n < 0 then "-" ++ commaNat n.natAbs else commaNat n.natAbs

/-- Python f-string `{x:,}` interpolation: thousands separators for an
integer; on a string CPython raises `ValueError`. -/
def commaFmt : Val → Except String String
  | .vint n => .ok (commaInt n)
  | .vstr _ => .error "Cannot specify \x27,\x27 with \x27s\x27."

/-- Python `str.upper()` on the ASCII data handled by this backend. -/
def pyUpper (s : String) : String :=
  String.mk (s.data.map Char.toUpper)

/-- Truthiness of the optional snapshot argument (`if not stock_data` /
`if stock_data`): `None` and the empty dict are falsy. -/
def snapTruthy : Option Snapshot → Bool
  | none => false
  | some d => !d.isEmpty

/-- Embedding of `AIService.get_stock_context` (ai_service.py lines 52-70).
Returns `Except.error` where the Python f-string raises `ValueError`
(missing `volume` or `market_cap`, whose `.get` default is the string
`"N/A"` and whose format spec is `,`). -/
def get_stock_context (stock_data : Option Snapshot) : Except String String :=
  if snapTruthy stock_data then
    let d := stock_data.getD []
    let g (k : String) : Val := sget d k (.vstr "N/A")
    match commaFmt (g "volume") with
    | .error e => .error e
    | .ok vol =>
      match commaFmt (g "market_cap") with
      | .error e => .error e
      | .ok mcap =>
        .ok ("\nCurrent Stock Information:\n- Symbol: " ++ render (g "symbol")
          ++ "\n- Company: " ++ render (g "company_name")
          ++ "\n- Current Price: $" ++ render (g "price")
          ++ "\n- Change: " ++ render (g "change_percent")
          ++ "%\n- Volume: " ++ vol
          ++ "\n- Market Cap: $" ++ mcap
          ++ "\n- Day High: $" ++ render (g "day_high")
          ++ "\n- Day Low: $" ++ render (g "day_low")
          ++ "\n- P/E Ratio: " ++ render (g "pe_ratio")
          ++ "\n- Beta: " ++ render (g "beta")
          ++ "\n")
  else .ok ""

/-- The fixed system instruction of `AIService.chat` (ai_service.py lines 80-88). -/
def systemPrompt : String :=
  "You are a helpful stock market assistant. You provide:\n1. Clear, accurate information about stocks\n2. Analysis of stock performance and trends\n3. Explanations of stock market concepts\n4. Investment insights (but NOT financial advice)\n\nAlways remind users that you\x27re providing information, not financial advice, and they should do their own research or consult a financial advisor.\n\nBe concise but informative. Use the stock data provided to give context-aware answers."

/-- One chat message of the assembled context. -/
structure Message where
  role : String
  content : String
deriving DecidableEq, Repr

/-- A prior chat turn: a Python dict from string keys to string values
(as produced by `ChatHistory.to_dict`). -/
abbrev Turn : Type := List (String × String)

/-- Python `msg.get(k, "")` on a history turn. -/
def turnGet (t : Turn) (k : String) : String :=
  ((List.find? (fun p => p.1 == k) t).map (fun p => p.2)).getD ""

/-- Python slice `l[-n:]`: the last `n` elements (all of them when fewer). -/
def lastN (n : Nat) (l : List α) : List α :=
  l.drop (l.length - n)

/-- Truthiness of the optional history argument (`if chat_history`). -/
def histTruthy : Option (List Turn) → Bool
  | none => false
  | some h => !h.isEmpty

/-- Embedding of the message assembly of `AIService.chat`
(ai_service.py lines 90-102): system prompt, user/assistant pairs of the
last five history turns, then the final user turn (with the rendered stock
context prepended when a snapshot is present). `Except.error` where the
Python code raises. -/
def buildMessages (user_message : String) (stock_data : Option Snapshot)
    (chat_history : Option (List Turn)) : Except String (List Message) :=
  let histMsgs : List Message :=
    if histTruthy chat_history then
      (lastN 5 (chat_history.getD [])).flatMap
        (fun m => [⟨"user", turnGet m "user_message"⟩,
                   ⟨"assistant", turnGet m "ai_response"⟩])
    else []
  let msgs := Message.mk "system" systemPrompt :: histMsgs
  if snapTruthy stock_data then
    match get_stock_context stock_data with
    | .error e => .error e
    | .ok ctx => .ok (msgs ++ [⟨"user", ctx ++ "\n\nUser Question: " ++ user_message⟩])
  else .ok (msgs ++ [⟨"user", user_message⟩])

/-- Outcome of the outbound HTTP request to the inference endpoint, as
observed by the surrounding `try` block of `AIService.chat`: timeout,
connection failure, any other raised error, or a response with a status
code and the extracted `message.content` text. -/
inductive LMOutcome where
  | timeout
  | connectError
  | otherError (detail : String)
  | response (status : Nat) (content : String)
deriving DecidableEq, Repr

/-- Embedding of the request/response handling of `AIService.chat`
(ai_service.py lines 104-130): every transport outcome is mapped to a
result string. -/
def lmResult (model : String) : LMOutcome → String
  | .timeout =>
      "The AI is taking too long to respond. Please try again with a shorter question."
  | .connectError =>
      "Cannot connect to the AI service. Please ensure Ollama is running (brew services start ollama)."
  | .otherError d => "I encountered an error processing your request: " ++ d
  | .response status content =>
      if status == 200 then
        if content == "" then "I couldn\x27t generate a response. Please try again."
        else content
      else
        "I encountered an error. Please make sure Ollama is running with the model \x27"
          ++ model ++ "\x27."

/-- Embedding of the whole of `AIService.chat` (ai_service.py lines 73-130):
message assembly (which can raise, since it runs before the `try` block)
followed by the guarded request. -/
def chatMethod (model : String) (user_message : String)
    (stock_data : Option Snapshot) (chat_history : Option (List Turn))
    (outcome : LMOutcome) : Except String String :=
  match buildMessages user_message stock_data chat_history with
  | .error e => .error e
  | .ok _ => .ok (lmResult model outcome)

/-- The fixed ticker allow-list of `AIService.extract_stock_symbol`
(ai_service.py line 135). -/
def common_symbols : List String :=
  ["AAPL", "GOOGL", "MSFT", "AMZN", "TSLA", "META", "NVDA", "JPM", "V", "WMT"]

/-- Python substring containment `needle in haystack`. -/
def strContains (haystack needle : String) : Bool :=
  let h := haystack.data
  let n := needle.data
  (List.range (h.length + 1)).any (fun i => (h.drop i).take n.length == n)

/-- Embedding of `AIService.extract_stock_symbol` (ai_service.py lines
133-140): the first allow-list symbol occurring as a substring of the
uppercased message. -/
def extract_stock_symbol (user_message : String) : Option String :=
  List.find? (fun sym => strContains (pyUpper user_message) sym) common_symbols

/-- Truthiness of an optional string (`if request.stock_symbol`):
`None` and the empty string are falsy. -/
def strTruthy : Option String → Bool
  | none => false
  | some s => !(s == "")

/-- Embedding of the snapshot selection of the `POST /api/chat` handler
(main.py lines 408-416): an explicitly supplied (truthy) `stock_symbol`
is uppercased and looked up; otherwise extraction from the message is
attempted. `get_stock_data` abstracts the Quote Provider. -/
def chatEndpointSnapshot (stock_symbol : Option String) (message : String)
    (get_stock_data : String → Option Snapshot) : Option Snapshot :=
  if strTruthy stock_symbol then get_stock_data (pyUpper (stock_symbol.getD ""))
  else
    match extract_stock_symbol message with
    | some sym => get_stock_data sym
    | none => none

/-- A stored watchlist row: the (user, symbol) pair of a `Watchlist` record
(the database row's surrogate key and timestamp carry no information used
by the endpoints). -/
structure WRow where
  user_id : String
  symbol : String
deriving DecidableEq, Repr

/-- Result of a watchlist endpoint: a success payload or an
`HTTPException` with status code and detail. -/
inductive WResp where
  | ok (message : String)
  | httpError (status : Nat) (detail : String)
deriving DecidableEq, Repr

/-- The row filter `Watchlist.user_id == u, Watchlist.symbol == s`. -/
def wmatch (u s : String) (r : WRow) : Bool :=
  r.user_id == u && r.symbol == s

/-- SQLAlchemy `query(Watchlist).filter(user_id == u, symbol == s).first()`:
the first stored row with exactly this user and symbol. -/
def wfindFirst (store : List WRow) (u s : String) : Option WRow :=
  List.find? (wmatch u s) store

/-- Embedding of `add_to_watchlist` (main.py lines 351-374): reject a
duplicate (user, uppercased symbol) pair with HTTP 400, otherwise append
the new row with the uppercased symbol. -/
def add_to_watchlist (store : List WRow) (user_id symbol : String) :
    List WRow × WResp :=
  match wfindFirst store user_id (pyUpper symbol) with
  | some _ => (store, .httpError 400 "Stock already in watchlist")
  | none => (store ++ [⟨user_id, pyUpper symbol⟩],
             .ok ("Added " ++ symbol ++ " to watchlist"))

/-- Embedding of `remove_from_watchlist` (main.py lines 376-394): HTTP 404
when no row matches the (user, uppercased symbol) pair, otherwise delete
the matched row. (`db.delete(item)` removes that row; all rows matching
the filter are equal as (user, symbol) pairs, so erasing the first equal
occurrence is that deletion.) -/
def remove_from_watchlist (store : List WRow) (symbol user_id : String) :
    List WRow × WResp :=
  match wfindFirst store user_id (pyUpper symbol) with
  | none => (store, .httpError 404 "Stock not in watchlist")
  | some item => (store.erase item,
                  .ok ("Removed " ++ symbol ++ " from watchlist"))

/-- Number of stored rows with the given (user, symbol) pair. -/
def countPair (store : List WRow) (u s : String) : Nat :=
  (store.filter (wmatch u s)).length

/-- Invariant: every (user, symbol) pair appears at most once. -/
def AtMostOnce (store : List WRow) : Prop :=
  ∀ u s, countPair store u s ≤ 1

/-- Invariant: every stored symbol is uppercase (fixed by `pyUpper`). -/
def StoreUpper (store : List WRow) : Prop :=
  ∀ r ∈ store, pyUpper r.symbol = r.symbol

/-- One watchlist operation: an add or a remove request. -/
inductive WOp where
  | add (user_id symbol : String)
  | remove (user_id symbol : String)
deriving DecidableEq, Repr

/-- Store state after one watchlist operation. -/
def applyOp (store : List WRow) : WOp → List WRow
  | .add u s => (add_to_watchlist store u s).1
  | .remove u s => (remove_from_watchlist store s u).1

/-- Store state after a sequence of watchlist operations. -/
def applyOps (ops : List WOp) (store : List WRow) : List WRow :=
  ops.foldl applyOp store

/-- One JSON frame pushed by the broadcaster:
`{type: "stock_update", data: [...snapshots], timestamp}`. -/
structure Frame where
  type : String
  data : List Snapshot
  timestamp : String

/-- Environment of one broadcaster loop iteration: the transport state at
the top of the iteration, the Quote Provider's behavior for this
iteration's fetch, whether the send succeeds, and the current clock
reading used for the frame timestamp. -/
structure IterEnv where
  connected : Bool
  fetch : List String → Except String (List Snapshot)
  sendOk : Bool
  now : String

/-- Observable action of the broadcaster loop. -/
inductive WsAction where
  | send (f : Frame)
  | sleep (seconds : Nat)

/-- How (or whether) the broadcaster loop exited. -/
inductive WsExit where
  | stillRunning
  | disconnected
  | failed
deriving DecidableEq, Repr

/-- The fixed default symbol set of the websocket endpoint
(main.py line 500). -/
def trackedSymbols : List String :=
  ["AAPL", "GOOGL", "MSFT", "TSLA", "AMZN"]

/-- Embedding of the `while True` loop of `websocket_endpoint`
(main.py lines 502-523), driven by one `IterEnv` per iteration (the list
acts as fuel; exhausting it means the loop is still running). Each
iteration checks the transport state, fetches snapshots for the fixed
symbol set, sends one frame, and sleeps 30 seconds; a fetch or send
failure breaks out of the loop. -/
def wsLoop : List IterEnv → List WsAction × WsExit
  | [] => ([], .stillRunning)
  | e :: rest =>
    if e.connected then
      match e.fetch trackedSymbols with
      | .error _ => ([], .failed)
      | .ok stocks_data =>
        if e.sendOk then
          let r := wsLoop rest
          (.send ⟨"stock_update", stocks_data, e.now⟩ :: .sleep 30 :: r.1, r.2)
        else ([], .failed)
    else ([], .disconnected)

/-- Embedding of `ConnectionManager.connect` (main.py lines 473-475):
accept and append to the registry. Connections are identified by a
numeric handle. -/
def managerConnect (reg : List Nat) (ws : Nat) : List Nat :=
  reg ++ [ws]

/-- Embedding of `ConnectionManager.disconnect` (main.py lines 477-478):
Python `list.remove`, deleting the first occurrence. -/
def managerDisconnect (reg : List Nat) (ws : Nat) : List Nat :=
  reg.erase ws

/-- Embedding of the full `websocket_endpoint` lifecycle (main.py lines
490-532): register, run the loop (every exit path, normal or
exceptional, falls through to the `finally` block), then unregister if
still registered. Returns the final registry, the number of
`manager.disconnect` calls made, and the loop's observable behavior. -/
def websocket_endpoint (reg : List Nat) (ws : Nat) (envs : List IterEnv) :
    List Nat × Nat × (List WsAction × WsExit) :=
  let reg1 := managerConnect reg ws
  let result := wsLoop envs
  if ws ∈ reg1 then (managerDisconnect reg1 ws, 1, result)
  else (reg1, 0, result)

/-! Helper lemmas. -/

/-- Conversion of a valid scalar value round-trips through `Char.ofNat`. -/
theorem char_toNat_ofNat_valid (n : Nat) (h : n.isValidChar) :
    (Char.ofNat n).toNat = n := by
  rw [Char.ofNat, dif_pos h]
  simp [Char.ofNatAux, Char.toNat, UInt32.toNat]

/-- Uppercasing a character is idempotent. -/
theorem charToUpper_idem (c : Char) : c.toUpper.toUpper = c.toUpper := by
  unfold Char.toUpper
  by_cases h : c.toNat ≥ 97 ∧ c.toNat ≤ 122
  · rw [if_pos h]
    have hv : Nat.isValidChar (c.toNat - 32) := Or.inl (by omega)
    have hn : (Char.ofNat (c.toNat - 32)).toNat = c.toNat - 32 :=
      char_toNat_ofNat_valid _ hv
    rw [if_neg]
    rw [hn]
    omega
  · rw [if_neg h, if_neg h]

/-- `pyUpper` is idempotent, so symbols stored uppercased stay fixed. -/
theorem pyUpper_idem (s : String) : pyUpper (pyUpper s) = pyUpper s := by
  have key : ∀ l : List Char,
      List.map Char.toUpper (List.map Char.toUpper l) = List.map Char.toUpper l := by
    intro l
    induction l with
    | nil => rfl
    | cons a t ih => simp [ih, charToUpper_idem]
  simp [pyUpper, key]

/-- A successful `find?` splits the list at the first hit: everything
before the returned element fails the predicate. -/
theorem find_decomp {α : Type} (p : α → Bool) :
    ∀ (l : List α) (r : α), l.find? p = some r →
      ∃ l1 l2, l = l1 ++ r :: l2 ∧ (∀ x ∈ l1, p x = false) ∧ p r = true := by
  intro l
  induction l with
  | nil => intro r h; simp [List.find?] at h
  | cons a t ih =>
    intro r h
    by_cases hp : p a
    · refine ⟨[], t, ?_, ?_, ?_⟩ <;> simp_all [List.find?_cons_of_pos]
    · rw [List.find?_cons_of_neg _ (by simp [hp])] at h
      obtain ⟨l1, l2, heq, hpre, hr⟩ := ih r h
      exact ⟨a :: l1, l2, by simp [heq], by simpa [hp] using hpre, hr⟩

/-- Python's `l[-n:]` slice is the reversal-based description of the last
`n` elements. -/
theorem lastN_eq_reverse_take (n : Nat) (l : List α) :
    lastN n l = (l.reverse.take n).reverse := by
  rw [lastN, List.take_reverse, List.reverse_reverse]

/-! Claim theorems. -/

/-- C8: `extract_stock_symbol` returns the first allow-list symbol that
occurs (case-insensitively) as a substring of the message — everything
earlier in the allow-list does not occur — and `none` exactly when no
allow-list symbol occurs; the message "How is V doing today" yields "V". -/
theorem extract_symbol_first_match (msg : String) :
    (∀ s, extract_stock_symbol msg = some s →
      ∃ pre post, common_symbols = pre ++ s :: post
        ∧ (∀ x ∈ pre, strContains (pyUpper msg) x = false)
        ∧ strContains (pyUpper msg) s = true)
    ∧ (extract_stock_symbol msg = none ↔
        ∀ s ∈ common_symbols, strContains (pyUpper msg) s = false)
    ∧ extract_stock_symbol "How is V doing today" = some "V" := by
  refine ⟨?_, ?_, by decide⟩
  · intro s h
    exact find_decomp _ _ _ h
  · rw [extract_stock_symbol, List.find?_eq_none]
    constructor
    · intro h s hs
      simpa using h s hs
    · intro h s hs
      simp [h s hs]

/-- C8 witness: concrete instantiations — "V" is matched by the message
"How is V doing today" with no earlier allow-list symbol occurring, and a
message with no allow-list symbol yields `none`. -/
theorem extract_symbol_first_match_witness :
    (∃ pre post, common_symbols = pre ++ "V" :: post
      ∧ (∀ x ∈ pre, strContains (pyUpper "How is V doing today") x = false)
      ∧ strContains (pyUpper "How is V doing today") "V" = true)
    ∧ extract_stock_symbol "hello there" = none := by
  constructor
  · exact (extract_symbol_first_match "How is V doing today").1 "V" (by decide)
  · exact (extract_symbol_first_match "hello there").2.1.mpr (by decide)

/-- C9: in the `POST /api/chat` handler, a supplied (non-empty)
`stock_symbol` wins: the snapshot looked up is for that symbol, uppercased,
independently of the message text; extraction from the message happens
only when the field is absent. -/
theorem chat_endpoint_symbol_precedence (s message : String)
    (provider : String → Option Snapshot) :
    (s ≠ "" → chatEndpointSnapshot (some s) message provider = provider (pyUpper s))
    ∧ (∀ m1 m2 : String, s ≠ "" →
        chatEndpointSnapshot (some s) m1 provider = chatEndpointSnapshot (some s) m2 provider)
    ∧ (chatEndpointSnapshot none message provider =
        match extract_stock_symbol message with
        | some sym => provider sym
        | none => none) := by
  have key : ∀ m : String, s ≠ "" →
      chatEndpointSnapshot (some s) m provider = provider (pyUpper s) := by
    intro m h
    have : strTruthy (some s) = true := by
      simp [strTruthy]
      exact h
    simp [chatEndpointSnapshot, this]
  refine ⟨key message, ?_, ?_⟩
  · intro m1 m2 h
    rw [key m1 h, key m2 h]
  · simp [chatEndpointSnapshot, strTruthy]

/-- C9 witness: with `stock_symbol = "aapl"` and a message containing the
allow-list symbol "V", the snapshot looked up is for "AAPL". -/
theorem chat_endpoint_symbol_precedence_witness :
    chatEndpointSnapshot (some "aapl") "How is V doing today"
      (fun sym => some [("symbol", Val.vstr sym)]) = some [("symbol", Val.vstr "AAPL")] := by
  have h := (chat_endpoint_symbol_precedence "aapl" "How is V doing today"
    (fun sym => some [("symbol", Val.vstr sym)])).1 (by decide)
  exact h.trans (by decide)

/-- Unfolding of the row filter. -/
theorem wmatch_iff (u s : String) (r : WRow) :
    wmatch u s r = true ↔ r.user_id = u ∧ r.symbol = s := by
  simp [wmatch]

/-- A pair is absent (the duplicate check finds nothing) iff its row count
is zero. -/
theorem countPair_zero_iff (store : List WRow) (u s : String) :
    wfindFirst store u s = none ↔ countPair store u s = 0 := by
  rw [wfindFirst, List.find?_eq_none, countPair, List.length_eq_zero,
    List.filter_eq_nil_iff]

/-- Row counts add over store concatenation. -/
theorem countPair_append (l1 l2 : List WRow) (u s : String) :
    countPair (l1 ++ l2) u s = countPair l1 u s + countPair l2 u s := by
  simp [countPair, List.filter_append]

/-- Row count of a one-row store. -/
theorem countPair_single (r : WRow) (u s : String) :
    countPair [r] u s = if wmatch u s r then 1 else 0 := by
  cases h : wmatch u s r <;> simp [countPair, List.filter_cons, h]

/-- Row counts only shrink on sublists. -/
theorem countPair_sublist {l1 l2 : List WRow} (h : List.Sublist l1 l2)
    (u s : String) : countPair l1 u s ≤ countPair l2 u s :=
  (h.filter _).length_le

/-- A successful duplicate check means at least one matching row. -/
theorem countPair_pos_of_found {store : List WRow} {u s : String} {r : WRow}
    (h : wfindFirst store u s = some r) : 1 ≤ countPair store u s := by
  rw [wfindFirst] at h
  have hmem : r ∈ store := List.mem_of_find?_eq_some h
  have hp : wmatch u s r = true := List.find?_some h
  have hf : r ∈ store.filter (wmatch u s) := List.mem_filter.mpr ⟨hmem, hp⟩
  have := List.length_pos.mpr (List.ne_nil_of_mem hf)
  rw [countPair]
  omega

/-- Adding preserves the at-most-once invariant. -/
theorem add_preserves_atMostOnce {store : List WRow} (u sym : String)
    (hinv : AtMostOnce store) : AtMostOnce (add_to_watchlist store u sym).1 := by
  cases h : wfindFirst store u (pyUpper sym) with
  | some r => simpa [add_to_watchlist, h] using hinv
  | none =>
    intro a b
    rw [add_to_watchlist, h]
    simp only
    rw [countPair_append, countPair_single]
    by_cases hab : a = u ∧ b = pyUpper sym
    · rw [hab.1, hab.2, (countPair_zero_iff store u (pyUpper sym)).mp h]
      simp [wmatch]
    · have hw : wmatch a b ⟨u, pyUpper sym⟩ = false := by
        cases hw : wmatch a b ⟨u, pyUpper sym⟩
        · rfl
        · obtain ⟨h1, h2⟩ := (wmatch_iff a b _).mp hw
          exact absurd ⟨h1.symm, h2.symm⟩ hab
      rw [hw]
      have := hinv a b
      simp
      omega

/-- Removing preserves the at-most-once invariant. -/
theorem remove_preserves_atMostOnce {store : List WRow} (sym u : String)
    (hinv : AtMostOnce store) : AtMostOnce (remove_from_watchlist store sym u).1 := by
  cases h : wfindFirst store u (pyUpper sym) with
  | none => simpa [remove_from_watchlist, h] using hinv
  | some r =>
    intro a b
    rw [remove_from_watchlist, h]
    simp only
    exact le_trans (countPair_sublist (List.erase_sublist r store) a b) (hinv a b)

/-- Every operation sequence preserves the at-most-once invariant. -/
theorem applyOps_preserves_atMostOnce : ∀ (ops : List WOp) (store : List WRow),
    AtMostOnce store → AtMostOnce (applyOps ops store) := by
  intro ops
  induction ops with
  | nil => intro store h; exact h
  | cons op rest ih =>
    intro store h
    rw [applyOps, List.foldl_cons]
    refine ih _ ?_
    cases op with
    | add u s => exact add_preserves_atMostOnce u s h
    | remove u s => exact remove_preserves_atMostOnce s u h

/-- After an add (successful or rejected), the pair is present. -/
theorem wfind_after_add (store : List WRow) (u sym : String) :
    ∃ r, wfindFirst (add_to_watchlist store u sym).1 u (pyUpper sym) = some r := by
  cases h : wfindFirst store u (pyUpper sym) with
  | some r =>
    refine ⟨r, ?_⟩
    rw [add_to_watchlist, h]
    exact h
  | none =>
    refine ⟨⟨u, pyUpper sym⟩, ?_⟩
    rw [add_to_watchlist, h]
    simp only [wfindFirst] at h ⊢
    rw [List.find?_append, h]
    simp [wmatch]

/-- C6: from any store satisfying the at-most-once invariant, adding a
(user, symbol) pair twice leaves exactly one stored row for the pair, the
second add returns HTTP 400 and leaves the store unchanged, and the
invariant holds after any sequence of watchlist operations. -/
theorem watchlist_add_twice (store : List WRow) (u sym : String)
    (hinv : AtMostOnce store) :
    countPair (add_to_watchlist store u sym).1 u (pyUpper sym) = 1
    ∧ (add_to_watchlist (add_to_watchlist store u sym).1 u sym).2
        = WResp.httpError 400 "Stock already in watchlist"
    ∧ (add_to_watchlist (add_to_watchlist store u sym).1 u sym).1
        = (add_to_watchlist store u sym).1
    ∧ (∀ ops : List WOp, AtMostOnce (applyOps ops store)) := by
  obtain ⟨r2, hfound⟩ := wfind_after_add store u sym
  refine ⟨?_, ?_, ?_, fun ops => applyOps_preserves_atMostOnce ops store hinv⟩
  · cases h : wfindFirst store u (pyUpper sym) with
    | none =>
      rw [add_to_watchlist, h]
      simp only
      rw [countPair_append, countPair_single,
        (countPair_zero_iff store u (pyUpper sym)).mp h]
      simp [wmatch]
    | some r =>
      rw [add_to_watchlist, h]
      simp only
      have h1 := countPair_pos_of_found h
      have h2 := hinv u (pyUpper sym)
      omega
  · rw [add_to_watchlist, hfound]
  · rw [add_to_watchlist, hfound]

/-- C6 witness: adding "aapl" twice for the default user from the empty
store leaves one row and yields HTTP 400 the second time. -/
theorem watchlist_add_twice_witness :
    countPair (add_to_watchlist [] "default_user" "aapl").1 "default_user" (pyUpper "aapl") = 1
    ∧ (add_to_watchlist (add_to_watchlist [] "default_user" "aapl").1 "default_user" "aapl").2
        = WResp.httpError 400 "Stock already in watchlist" := by
  have h := watchlist_add_twice [] "default_user" "aapl" (by intro a b; simp [countPair])
  exact ⟨h.1, h.2.1⟩

/-- C7: removing an absent (user, symbol) pair returns HTTP 404 with the
store unchanged; removing a present pair removes exactly the first
matching row (everything before it does not match) and returns the
success message. -/
theorem watchlist_remove_semantics (store : List WRow) (u sym : String) :
    (wfindFirst store u (pyUpper sym) = none →
      remove_from_watchlist store sym u = (store, WResp.httpError 404 "Stock not in watchlist"))
    ∧ (∀ r, wfindFirst store u (pyUpper sym) = some r →
      ∃ pre post, store = pre ++ r :: post
        ∧ (∀ x ∈ pre, ¬(x.user_id = u ∧ x.symbol = pyUpper sym))
        ∧ (remove_from_watchlist store sym u).1 = pre ++ post
        ∧ (remove_from_watchlist store sym u).2
            = WResp.ok ("Removed " ++ sym ++ " from watchlist")) := by
  constructor
  · intro h
    rw [remove_from_watchlist, h]
  · intro r h
    obtain ⟨pre, post, heq, hpre, hr⟩ :=
      find_decomp _ _ _ (by rw [wfindFirst] at h; exact h)
    have hnotin : r ∉ pre := by
      intro hmem
      rw [hpre r hmem] at hr
      exact Bool.false_ne_true hr
    refine ⟨pre, post, heq, ?_, ?_, ?_⟩
    · intro x hx hc
      have := (wmatch_iff u (pyUpper sym) x).mpr hc
      rw [hpre x hx] at this
      exact Bool.false_ne_true this
    · rw [remove_from_watchlist, h]
      simp only
      rw [heq, List.erase_append_right _ hnotin, List.erase_cons_head]
    · rw [remove_from_watchlist, h]

/-- C7 witness: removing "AAPL" from the empty store yields 404 with the
store unchanged; removing it from a one-row store removes that row. -/
theorem watchlist_remove_semantics_witness :
    remove_from_watchlist [] "AAPL" "default_user"
        = ([], WResp.httpError 404 "Stock not in watchlist")
    ∧ (∃ pre post, ([⟨"default_user", "AAPL"⟩] : List WRow)
          = pre ++ (⟨"default_user", "AAPL"⟩ : WRow) :: post
        ∧ (∀ x ∈ pre, ¬(x.user_id = "default_user" ∧ x.symbol = pyUpper "AAPL"))
        ∧ (remove_from_watchlist [⟨"default_user", "AAPL"⟩] "AAPL" "default_user").1 = pre ++ post
        ∧ (remove_from_watchlist [⟨"default_user", "AAPL"⟩] "AAPL" "default_user").2
            = WResp.ok "Removed AAPL from watchlist") := by
  constructor
  · exact (watchlist_remove_semantics [] "default_user" "AAPL").1 (by decide)
  · exact (watchlist_remove_semantics [⟨"default_user", "AAPL"⟩] "default_user" "AAPL").2
      ⟨"default_user", "AAPL"⟩ (by decide)

/-- Adding preserves the all-uppercase invariant (new rows are stored
uppercased, and uppercasing is idempotent). -/
theorem add_preserves_storeUpper {store : List WRow} (u sym : String)
    (hup : StoreUpper store) : StoreUpper (add_to_watchlist store u sym).1 := by
  cases h : wfindFirst store u (pyUpper sym) with
  | some r => simpa [add_to_watchlist, h] using hup
  | none =>
    intro r hr
    rw [add_to_watchlist, h] at hr
    simp only [List.mem_append, List.mem_singleton] at hr
    cases hr with
    | inl hmem => exact hup r hmem
    | inr heq => rw [heq]; exact pyUpper_idem sym

/-- Removing preserves the all-uppercase invariant. -/
theorem remove_preserves_storeUpper {store : List WRow} (sym u : String)
    (hup : StoreUpper store) : StoreUpper (remove_from_watchlist store sym u).1 := by
  cases h : wfindFirst store u (pyUpper sym) with
  | none => simpa [remove_from_watchlist, h] using hup
  | some r =>
    intro x hx
    rw [remove_from_watchlist, h] at hx
    simp only at hx
    exact hup x (List.erase_subset r store hx)

/-- C10: stored watchlist symbols stay uppercase across any operation
sequence; adding any case variant of an already-added symbol is rejected
with HTTP 400; and removal treats case variants of the requested symbol
identically (same resulting store, same found/not-found status). -/
theorem watchlist_uppercase_invariant (store : List WRow) (u s t : String) :
    (∀ ops : List WOp, StoreUpper store → StoreUpper (applyOps ops store))
    ∧ (pyUpper t = pyUpper s →
        (add_to_watchlist (add_to_watchlist store u s).1 u t).2
          = WResp.httpError 400 "Stock already in watchlist")
    ∧ (pyUpper t = pyUpper s →
        (remove_from_watchlist store t u).1 = (remove_from_watchlist store s u).1
        ∧ ((remove_from_watchlist store t u).2 = WResp.httpError 404 "Stock not in watchlist"
            ↔ (remove_from_watchlist store s u).2 = WResp.httpError 404 "Stock not in watchlist")) := by
  refine ⟨?_, ?_, ?_⟩
  · intro ops
    induction ops generalizing store with
    | nil => intro h; exact h
    | cons op rest ih =>
      intro h
      rw [applyOps, List.foldl_cons]
      refine ih _ ?_
      cases op with
      | add u2 s2 => exact add_preserves_storeUpper u2 s2 h
      | remove u2 s2 => exact remove_preserves_storeUpper s2 u2 h
  · intro ht
    obtain ⟨r, hfound⟩ := wfind_after_add store u s
    rw [add_to_watchlist, ht, hfound]
  · intro ht
    cases h : wfindFirst store u (pyUpper s) with
    | none => rw [remove_from_watchlist, remove_from_watchlist, ht, h]; simp
    | some r => rw [remove_from_watchlist, remove_from_watchlist, ht, h]; simp

/-- C10 witness: adding "aapl" after "AAPL" is rejected as a duplicate,
and a store built by adds of lowercase symbols holds only uppercase
symbols. -/
theorem watchlist_uppercase_invariant_witness :
    (add_to_watchlist (add_to_watchlist [] "default_user" "AAPL").1 "default_user" "aapl").2
        = WResp.httpError 400 "Stock already in watchlist"
    ∧ StoreUpper (applyOps [WOp.add "default_user" "tsla", WOp.add "default_user" "aapl"] []) := by
  constructor
  · exact (watchlist_uppercase_invariant [] "default_user" "AAPL" "aapl").2.1 (by decide)
  · exact (watchlist_uppercase_invariant [] "default_user" "" "").1
      [WOp.add "default_user" "tsla", WOp.add "default_user" "aapl"]
      (by intro r hr; simp at hr)

/-- C5: broadcaster loop behavior, one iteration at a time: a closed
transport at the top of an iteration exits without sending; a successful
iteration sends exactly one frame of shape
`{type: "stock_update", data, timestamp}` built from the fetch for the
fixed default symbol set and then sleeps 30 time units before the rest of
the run; a fetch error or a send failure terminates the loop with no
frame sent afterwards, whatever iterations were still to come. -/
theorem websocket_loop_behavior (e : IterEnv) (rest : List IterEnv) :
    (e.connected = false → wsLoop (e :: rest) = ([], WsExit.disconnected))
    ∧ (∀ stocks, e.connected = true → e.fetch trackedSymbols = Except.ok stocks →
        e.sendOk = true →
        wsLoop (e :: rest)
          = (WsAction.send ⟨"stock_update", stocks, e.now⟩
              :: WsAction.sleep 30 :: (wsLoop rest).1, (wsLoop rest).2))
    ∧ (∀ err, e.connected = true → e.fetch trackedSymbols = Except.error err →
        wsLoop (e :: rest) = ([], WsExit.failed))
    ∧ (∀ stocks, e.connected = true → e.fetch trackedSymbols = Except.ok stocks →
        e.sendOk = false → wsLoop (e :: rest) = ([], WsExit.failed)) := by
  refine ⟨?_, ?_, ?_, ?_⟩
  · intro h
    simp [wsLoop, h]
  · intro stocks h1 h2 h3
    simp [wsLoop, h1, h2, h3]
  · intro err h1 h2
    simp [wsLoop, h1, h2]
  · intro stocks h1 h2 h3
    simp [wsLoop, h1, h2, h3]

/-- C5 witness: concrete runs — disconnected exit without sending, one
successful send-then-sleep iteration, a fetch failure terminating before
a following healthy iteration, and a send failure terminating the run. -/
theorem websocket_loop_behavior_witness :
    wsLoop [⟨false, fun _ => Except.ok [], true, "t0"⟩] = ([], WsExit.disconnected)
    ∧ wsLoop [⟨true, fun _ => Except.ok [], true, "t1"⟩]
        = ([WsAction.send ⟨"stock_update", [], "t1"⟩, WsAction.sleep 30], WsExit.stillRunning)
    ∧ wsLoop (⟨true, fun _ => Except.error "boom", true, "t2"⟩
        :: [⟨true, fun _ => Except.ok [], true, "t3"⟩]) = ([], WsExit.failed)
    ∧ wsLoop [⟨true, fun _ => Except.ok [], false, "t4"⟩] = ([], WsExit.failed) := by
  refine ⟨?_, ?_, ?_, ?_⟩
  · exact (websocket_loop_behavior ⟨false, fun _ => Except.ok [], true, "t0"⟩ []).1 rfl
  · exact (websocket_loop_behavior ⟨true, fun _ => Except.ok [], true, "t1"⟩ []).2.1 [] rfl rfl rfl
  · exact (websocket_loop_behavior ⟨true, fun _ => Except.error "boom", true, "t2"⟩
      [⟨true, fun _ => Except.ok [], true, "t3"⟩]).2.2.1 "boom" rfl rfl
  · exact (websocket_loop_behavior ⟨true, fun _ => Except.ok [], false, "t4"⟩ []).2.2.2 [] rfl rfl rfl

/-- C4: for a fresh connection, the endpoint's `finally` cleanup
unregisters exactly once on every exit path, the registry afterwards is
exactly what it was before the connection (so the connection is gone and
no dead entry remains), and any other connection's loop output is a
function of its own iteration environments only, unaffected by this
connection's failure. -/
theorem websocket_cleanup_once (reg : List Nat) (ws : Nat) (envs : List IterEnv)
    (h : ws ∉ reg) :
    (websocket_endpoint reg ws envs).2.1 = 1
    ∧ (websocket_endpoint reg ws envs).1 = reg
    ∧ ws ∉ (websocket_endpoint reg ws envs).1
    ∧ (∀ (reg2 : List Nat) (ws2 : Nat) (envs2 : List IterEnv),
        (websocket_endpoint reg2 ws2 envs2).2.2 = wsLoop envs2) := by
  have hmem : ws ∈ managerConnect reg ws := by simp [managerConnect]
  have hreg : (websocket_endpoint reg ws envs).1 = reg := by
    rw [websocket_endpoint]
    simp only [if_pos hmem]
    rw [managerDisconnect, managerConnect, List.erase_append_right _ h,
      List.erase_cons_head]
    simp
  refine ⟨?_, hreg, ?_, ?_⟩
  · rw [websocket_endpoint]
    simp only [if_pos hmem]
  · rw [hreg]
    exact h
  · intro reg2 ws2 envs2
    rw [websocket_endpoint]
    by_cases h2 : ws2 ∈ managerConnect reg2 ws2 <;> simp [h2]

/-- C4 witness: a fresh connection on the empty registry is cleaned up
exactly once and leaves the registry empty. -/
theorem websocket_cleanup_once_witness :
    (websocket_endpoint [] 1 []).2.1 = 1 ∧ (websocket_endpoint [] 1 []).1 = [] := by
  have h := websocket_cleanup_once [] 1 [] (by simp)
  exact ⟨h.1, h.2.1⟩

/-- C1 (amended: for snapshots whose context rendering succeeds — the
rendering raises on a truthy snapshot missing integer volume or market
capitalization, see the counterexample): the assembled list is exactly
the fixed system instruction, then the user/assistant pairs of the last
five history turns oldest-first, then one final user turn; the last-five
window is the reversal-based description of Python `l[-5:]`, and a
7-turn history contributes exactly turns 3..7. -/
theorem chat_context_window_shape (msg : String) (snap : Option Snapshot)
    (hist : Option (List Turn)) :
    (∀ ctx, snapTruthy snap = true → get_stock_context snap = Except.ok ctx →
      buildMessages msg snap hist = Except.ok
        (Message.mk "system" systemPrompt
          :: ((lastN 5 (hist.getD [])).flatMap
                (fun t => [Message.mk "user" (turnGet t "user_message"),
                           Message.mk "assistant" (turnGet t "ai_response")])
              ++ [Message.mk "user" (ctx ++ "\n\nUser Question: " ++ msg)])))
    ∧ (snapTruthy snap = false →
      buildMessages msg snap hist = Except.ok
        (Message.mk "system" systemPrompt
          :: ((lastN 5 (hist.getD [])).flatMap
                (fun t => [Message.mk "user" (turnGet t "user_message"),
                           Message.mk "assistant" (turnGet t "ai_response")])
              ++ [Message.mk "user" msg])))
    ∧ (∀ l : List Turn, lastN 5 l = (l.reverse.take 5).reverse)
    ∧ (∀ l : List Turn, l.length = 7 → lastN 5 l = l.drop 2) := by
  refine ⟨?_, ?_, fun l => lastN_eq_reverse_take 5 l, ?_⟩
  · intro ctx h1 h2
    cases hist with
    | none => simp [buildMessages, histTruthy, h1, h2, lastN]
    | some hl =>
      by_cases he : hl.isEmpty
      · rw [List.isEmpty_iff.mp he]
        simp [buildMessages, histTruthy, h1, h2, lastN]
      · simp [buildMessages, histTruthy, he, h1, h2]
  · intro h1
    cases hist with
    | none => simp [buildMessages, histTruthy, h1, lastN]
    | some hl =>
      by_cases he : hl.isEmpty
      · rw [List.isEmpty_iff.mp he]
        simp [buildMessages, histTruthy, h1, lastN]
      · simp [buildMessages, histTruthy, he, h1]
  · intro l hl
    rw [lastN, hl]

/-- C1 witness: with 7 prior turns and no snapshot, the built context is
the system prompt, the pairs of turns 3..7 oldest-first, and the final
user turn. -/
theorem chat_context_window_shape_witness :
    buildMessages "hi" none (some [
      [("user_message", "u1"), ("ai_response", "a1")],
      [("user_message", "u2"), ("ai_response", "a2")],
      [("user_message", "u3"), ("ai_response", "a3")],
      [("user_message", "u4"), ("ai_response", "a4")],
      [("user_message", "u5"), ("ai_response", "a5")],
      [("user_message", "u6"), ("ai_response", "a6")],
      [("user_message", "u7"), ("ai_response", "a7")]])
    = Except.ok [Message.mk "system" systemPrompt,
        Message.mk "user" "u3", Message.mk "assistant" "a3",
        Message.mk "user" "u4", Message.mk "assistant" "a4",
        Message.mk "user" "u5", Message.mk "assistant" "a5",
        Message.mk "user" "u6", Message.mk "assistant" "a6",
        Message.mk "user" "u7", Message.mk "assistant" "a7",
        Message.mk "user" "hi"] := by
  have h := (chat_context_window_shape "hi" none (some [
      [("user_message", "u1"), ("ai_response", "a1")],
      [("user_message", "u2"), ("ai_response", "a2")],
      [("user_message", "u3"), ("ai_response", "a3")],
      [("user_message", "u4"), ("ai_response", "a4")],
      [("user_message", "u5"), ("ai_response", "a5")],
      [("user_message", "u6"), ("ai_response", "a6")],
      [("user_message", "u7"), ("ai_response", "a7")]])).2.1 rfl
  exact h.trans (by rfl)

/-- C1 counterexample: with a (truthy) snapshot that has no volume field,
the assembly raises the format `ValueError` instead of producing any
list, refuting the unamended claim's universal quantification over
snapshots. -/
theorem chat_context_window_shape_cx :
    buildMessages "hi" (some [("symbol", Val.vstr "AAPL")]) none
      = Except.error "Cannot specify \x27,\x27 with \x27s\x27." := by
  rfl

/-- C2: evaluation of the rendered stock-context block. A snapshot
missing `volume` makes the f-string raise `ValueError` (the `,` format
spec applied to the string default `"N/A"`) instead of rendering "N/A",
refuting the claim for those fields; on a snapshot carrying integer
volume and market capitalization, the block renders one `field: value`
line per listed field, with the other missing fields as "N/A" and
volume/market cap thousands-separated. -/
theorem stock_context_rendering_eval :
    get_stock_context (some [("symbol", Val.vstr "AAPL")])
        = Except.error "Cannot specify \x27,\x27 with \x27s\x27."
    ∧ get_stock_context (some [("symbol", Val.vstr "AAPL"),
        ("company_name", Val.vstr "Apple Inc."), ("price", Val.vstr "175.5"),
        ("change_percent", Val.vstr "1.25"), ("volume", Val.vint 50000000),
        ("market_cap", Val.vint 2700000000000)])
      = Except.ok "\nCurrent Stock Information:\n- Symbol: AAPL\n- Company: Apple Inc.\n- Current Price: $175.5\n- Change: 1.25%\n- Volume: 50,000,000\n- Market Cap: $2,700,000,000,000\n- Day High: $N/A\n- Day Low: $N/A\n- P/E Ratio: N/A\n- Beta: N/A\n" := by
  exact ⟨by rfl, by rfl⟩

/-- C3: `AIService.chat` raises past its boundary on a snapshot missing
`volume` (the context is built before the `try` block), refuting the
claim's "never raises"; on every input without a truthy snapshot it
returns a string for every transport outcome, with each outcome mapped
to exactly the documented fixed message (timeout, connection failure,
empty generated text, non-OK status, other failure, OK text). -/
theorem chat_error_paths_eval :
    chatMethod "qwen2.5:0.5b" "hi" (some [("symbol", Val.vstr "AAPL")]) none LMOutcome.timeout
        = Except.error "Cannot specify \x27,\x27 with \x27s\x27."
    ∧ (∀ (model msg : String) (hist : Option (List Turn)) (outcome : LMOutcome),
        chatMethod model msg none hist outcome = Except.ok (lmResult model outcome))
    ∧ chatMethod "qwen2.5:0.5b" "hi" none none LMOutcome.timeout
        = Except.ok "The AI is taking too long to respond. Please try again with a shorter question."
    ∧ chatMethod "qwen2.5:0.5b" "hi" none none LMOutcome.connectError
        = Except.ok "Cannot connect to the AI service. Please ensure Ollama is running (brew services start ollama)."
    ∧ chatMethod "qwen2.5:0.5b" "hi" none none (LMOutcome.response 200 "")
        = Except.ok "I couldn\x27t generate a response. Please try again."
    ∧ chatMethod "qwen2.5:0.5b" "hi" none none (LMOutcome.response 500 "boom")
        = Except.ok "I encountered an error. Please make sure Ollama is running with the model \x27qwen2.5:0.5b\x27."
    ∧ chatMethod "qwen2.5:0.5b" "hi" none none (LMOutcome.otherError "oops")
        = Except.ok "I encountered an error processing your request: oops"
    ∧ chatMethod "qwen2.5:0.5b" "hi" none none (LMOutcome.response 200 "Answer")
        = Except.ok "Answer" := by
  refine ⟨by rfl, ?_, by rfl, by rfl, by rfl, by rfl, by rfl, by rfl⟩
  intro model msg hist outcome
  simp [chatMethod, buildMessages, snapTruthy]
